import Mathlib

/-!
Verification of the appointy-calendar-sync repository.

The repository ships three variants of the same pipeline:
  * the serverless handler in api/calendar.js (embedded in src/README.md):
    access gate with crypto.timingSafeEqual, cache gate, HTML extraction
    (extractAppointmentsFromHTML / parseAppointment), generateICS;
  * the standalone scraper in src/scraper.js (first part): extractAppointments
    (three DOM strategies), parseAppointment, parseDate, parseDateTime;
  * the Express server in src/server.js (second part of src/scraper.js):
    GET /calendar/:token handler, parseAppointmentData, generateICS;
  * src/calendar.js: generateCalendar and generateUID.

This file embeds those functions shallowly: JS Date values become Int epoch
milliseconds, the scrape (an external collaborator) becomes an explicit
Except-typed argument, and the regular-expression match results that the DOM
strategies read become structured inputs mirroring the capture groups.
-/

namespace AppointySync

/-! ## JS helpers -/

/-- Truthiness of a JS string-or-null value: null/undefined and the empty
string are falsy (used by the handlers for config.calendarToken and
cachedICS). -/
def jsTruthy : Option String → Bool
  | none => false
  | some s => s ≠ ""

/-- ASCII lower-casing of a character, as String.prototype.toLowerCase
behaves on the ASCII tokens this scraper compares. -/
def asciiLower (c : Char) : Char :=
  if 'A' ≤ c ∧ c ≤ 'Z' then Char.ofNat (c.toNat + 32) else c

/-- ASCII lower-casing of a string. -/
def lowerStr (s : String) : String := ⟨s.data.map asciiLower⟩

def isDigit (c : Char) : Bool := '0' ≤ c ∧ c ≤ '9'

/-- Numeric value of a list of decimal digit characters (the model of JS
parseInt on a regex capture that is guaranteed to be all digits). -/
def digitsToNat (cs : List Char) : Nat :=
  cs.foldl (fun acc c => acc * 10 + (c.toNat - '0'.toNat)) 0

/-! ## Date model

JS Date values are modelled as epoch milliseconds (Int).  The constructor
new Date(year, monthIndex, day) is modelled through the standard
days-from-civil calendar algorithm; out-of-range month and day arguments
roll over exactly as in JS because the algorithm is affine in the day and
the month is normalised first. -/

/-- Days since 1970-01-01 of the civil date y-m-d (m in 1..12; d may be out
of range, in which case it rolls over like the JS Date constructor). -/
def daysFromCivil (y m d : Int) : Int :=
  let y' := if m ≤ 2 then y - 1 else y
  let era := (if 0 ≤ y' then y' else y' - 399) / 400
  let yoe := y' - era * 400
  let mp := (m + 9) % 12
  let doy := (153 * mp + 2) / 5 + d - 1
  let doe := yoe * 365 + yoe / 4 - yoe / 100 + doy
  era * 146097 + doe - 719468

/-- Civil date (y, m, d) of a number of days since 1970-01-01. -/
def civilFromDays (z0 : Int) : Int × Int × Int :=
  let z := z0 + 719468
  let era := (if 0 ≤ z then z else z - 146096) / 146097
  let doe := z - era * 146097
  let yoe := (doe - doe / 1460 + doe / 36524 - doe / 146096) / 365
  let y := yoe + era * 400
  let doy := doe - (365 * yoe + yoe / 4 - yoe / 100)
  let mp := (5 * doy + 2) / 153
  let d := doy - (153 * mp + 2) / 5 + 1
  let m := if mp < 10 then mp + 3 else mp - 9
  (if m ≤ 2 then y + 1 else y, m, d)

def msPerDay : Int := 86400000
def msPerHour : Int := 3600000
def msPerMinute : Int := 60000

/-- Model of the JS constructor new Date(year, monthIndex, day): epoch
milliseconds at midnight.  A month index outside 0..11 and a day outside the
month roll over; a year in 0..99 means 1900+year (the JS constructor
quirk). -/
def jsMakeDate (year monthIndex day : Int) : Int :=
  let y := if 0 ≤ year ∧ year ≤ 99 then 1900 + year else year
  let ny := y + monthIndex.fdiv 12
  let m := monthIndex.emod 12 + 1
  daysFromCivil ny m day * msPerDay

/-- Left-pads the decimal form of n to width w with zeros. -/
def padNat (w n : Nat) : String :=
  let s := toString n
  ⟨List.replicate (w - s.length) '0'⟩ ++ s

/-- Model of Date.prototype.toISOString: the fixed 24-character
"YYYY-MM-DDTHH:MM:SS.sssZ" rendering of an epoch-millisecond value. -/
def isoString (t : Int) : String :=
  let days := t.fdiv msPerDay
  let ms := (t.emod msPerDay).toNat
  let (y, mo, d) := civilFromDays days
  padNat 4 y.toNat ++ "-" ++ padNat 2 mo.toNat ++ "-" ++ padNat 2 d.toNat ++ "T" ++
    padNat 2 (ms / 3600000) ++ ":" ++ padNat 2 (ms / 60000 % 60) ++ ":" ++
    padNat 2 (ms / 1000 % 60) ++ "." ++ padNat 3 (ms % 1000) ++ "Z"

/-! ## MD5 (crypto.createHash('md5') ... digest('hex'))

Both generateUID (src/calendar.js) and the two generateICS variants feed a
content string through MD5 and render the digest in lowercase hex.  The
standard MD5 algorithm is embedded below over byte lists, with 32-bit words
as Nat values kept below 2^32. -/

def pow32 : Nat := 4294967296

def mask32 (x : Nat) : Nat := x % pow32

def not32 (x : Nat) : Nat := 4294967295 - x

def rotl32 (x n : Nat) : Nat := mask32 (x <<< n) ||| (x >>> (32 - n))

/-- UTF-8 bytes of a string, as Buffer.from(string) produces. -/
def utf8Bytes (s : String) : List Nat :=
  s.data.flatMap fun c =>
    let n := c.toNat
    if n < 0x80 then [n]
    else if n < 0x800 then [0xC0 ||| (n >>> 6), 0x80 ||| (n &&& 0x3F)]
    else if n < 0x10000 then
      [0xE0 ||| (n >>> 12), 0x80 ||| ((n >>> 6) &&& 0x3F), 0x80 ||| (n &&& 0x3F)]
    else
      [0xF0 ||| (n >>> 18), 0x80 ||| ((n >>> 12) &&& 0x3F),
       0x80 ||| ((n >>> 6) &&& 0x3F), 0x80 ||| (n &&& 0x3F)]

/-- MD5 per-round shift amounts. -/
def md5S : List Nat :=
  [7, 12, 17, 22, 7, 12, 17, 22, 7, 12, 17, 22, 7, 12, 17, 22,
   5, 9, 14, 20, 5, 9, 14, 20, 5, 9, 14, 20, 5, 9, 14, 20,
   4, 11, 16, 23, 4, 11, 16, 23, 4, 11, 16, 23, 4, 11, 16, 23,
   6, 10, 15, 21, 6, 10, 15, 21, 6, 10, 15, 21, 6, 10, 15, 21]

/-- MD5 sine-derived constants. -/
def md5K : List Nat :=
  [0xd76aa478, 0xe8c7b756, 0x242070db, 0xc1bdceee,
   0xf57c0faf, 0x4787c62a, 0xa8304613, 0xfd469501,
   0x698098d8, 0x8b44f7af, 0xffff5bb1, 0x895cd7be,
   0x6b901122, 0xfd987193, 0xa679438e, 0x49b40821,
   0xf61e2562, 0xc040b340, 0x265e5a51, 0xe9b6c7aa,
   0xd62f105d, 0x02441453, 0xd8a1e681, 0xe7d3fbc8,
   0x21e1cde6, 0xc33707d6, 0xf4d50d87, 0x455a14ed,
   0xa9e3e905, 0xfcefa3f8, 0x676f02d9, 0x8d2a4c8a,
   0xfffa3942, 0x8771f681, 0x6d9d6122, 0xfde5380c,
   0xa4beea44, 0x4bdecfa9, 0xf6bb4b60, 0xbebfbc70,
   0x289b7ec6, 0xeaa127fa, 0xd4ef3085, 0x04881d05,
   0xd9d4d039, 0xe6db99e5, 0x1fa27cf8, 0xc4ac5665,
   0xf4292244, 0x432aff97, 0xab9423a7, 0xfc93a039,
   0x655b59c3, 0x8f0ccc92, 0xffeff47d, 0x85845dd1,
   0x6fa87e4f, 0xfe2ce6e0, 0xa3014314, 0x4e0811a1,
   0xf7537e82, 0xbd3af235, 0x2ad7d2bb, 0xeb86d391]

/-- The 16 little-endian 32-bit words of one 64-byte chunk. -/
def md5Words (chunk : List Nat) : List Nat :=
  (List.range 16).map fun i =>
    chunk.getD (4 * i) 0 + chunk.getD (4 * i + 1) 0 * 256 +
      chunk.getD (4 * i + 2) 0 * 65536 + chunk.getD (4 * i + 3) 0 * 16777216

/-- One of the 64 MD5 rounds. -/
def md5Round (M : List Nat) (st : Nat × Nat × Nat × Nat) (i : Nat) :
    Nat × Nat × Nat × Nat :=
  let (a, b, c, d) := st
  let (f, g) :=
    if i < 16 then ((b &&& c) ||| (not32 b &&& d), i)
    else if i < 32 then ((d &&& b) ||| (not32 d &&& c), (5 * i + 1) % 16)
    else if i < 48 then (b ^^^ c ^^^ d, (3 * i + 5) % 16)
    else (c ^^^ (b ||| not32 d), (7 * i) % 16)
  let f := mask32 (f + a + md5K.getD i 0 + M.getD g 0)
  (d, mask32 (b + rotl32 f (md5S.getD i 0)), b, c)

/-- Processes one 64-byte chunk into the running state. -/
def md5Chunk (st : Nat × Nat × Nat × Nat) (chunk : List Nat) :
    Nat × Nat × Nat × Nat :=
  let M := md5Words chunk
  let (a, b, c, d) := (List.range 64).foldl (md5Round M) st
  let (a0, b0, c0, d0) := st
  (mask32 (a0 + a), mask32 (b0 + b), mask32 (c0 + c), mask32 (d0 + d))

/-- Splits a byte list into 64-byte chunks; the fuel argument (one unit
per chunk) keeps the recursion structural. -/
def md5ChunksAux : Nat → List Nat → List (List Nat)
  | 0, _ => []
  | _, [] => []
  | fuel + 1, b :: bs => (b :: bs).take 64 :: md5ChunksAux fuel ((b :: bs).drop 64)

/-- Splits a padded message into 64-byte chunks. -/
def md5Chunks (bs : List Nat) : List (List Nat) := md5ChunksAux bs.length bs

/-- MD5 padding: a 0x80 byte, zeros to 56 mod 64, then the bit length as
eight little-endian bytes. -/
def md5Pad (msg : List Nat) : List Nat :=
  let bitLen := msg.length * 8
  let zeros := (119 - msg.length % 64) % 64
  msg ++ [0x80] ++ List.replicate zeros 0 ++
    (List.range 8).map fun i => bitLen >>> (8 * i) % 256

/-- The 16 digest bytes of an MD5 computation. -/
def md5Digest (msg : List Nat) : List Nat :=
  let (a, b, c, d) := (md5Chunks (md5Pad msg)).foldl md5Chunk
    (0x67452301, 0xefcdab89, 0x98badcfe, 0x10325476)
  [a, b, c, d].flatMap fun w =>
    [w % 256, w / 256 % 256, w / 65536 % 256, w / 16777216 % 256]

def hexDigit (n : Nat) : Char :=
  if n < 10 then Char.ofNat ('0'.toNat + n) else Char.ofNat ('a'.toNat + n - 10)

/-- Lowercase hex rendering of a byte list, as digest('hex') produces. -/
def toHex (bytes : List Nat) : String :=
  ⟨bytes.flatMap fun b => [hexDigit (b / 16), hexDigit (b % 16)]⟩

/-- crypto.createHash('md5').update(content).digest('hex') on a string. -/
def md5Hex (content : String) : String := toHex (md5Digest (utf8Bytes content))

/-! ## Access Gate

api/calendar.js (src/README.md lines 152-161):

  if (!config.calendarToken) return res.status(500).json(... not configured);
  const expected = Buffer.from(config.calendarToken);
  const provided = Buffer.from(String(token || ''));
  if (expected.length !== provided.length || !crypto.timingSafeEqual(expected, provided))
    return res.status(403).json(... invalid token);

Tokens are modelled as byte lists (the Buffers).  Because JS disjunction
short-circuits, timingSafeEqual runs only when the two lengths agree; the
second component of the result records whether it was invoked. -/

inductive GateResult where
  | notConfigured
  | invalidToken
  | ok
deriving DecidableEq, Repr

/-- crypto.timingSafeEqual on two equal-length buffers: true exactly when
the byte sequences coincide (its constant-time execution is a real-time
property outside this model). -/
def timingSafeEqual (a b : List Nat) : Bool := a == b

/-- The api/calendar.js token gate.  Returns the gate outcome and whether
crypto.timingSafeEqual was invoked. -/
def accessGateApi (calendarToken : Option (List Nat)) (provided : List Nat) :
    GateResult × Bool :=
  if calendarToken = none ∨ calendarToken = some [] then
    (.notConfigured, false)
  else
    let expected := calendarToken.getD []
    if expected.length ≠ provided.length then (.invalidToken, false)
    else if timingSafeEqual expected provided then (.ok, true)
    else (.invalidToken, true)

/-- HTTP status and body of an api/calendar.js gate rejection (none means
the request proceeds past the gate). -/
def gateResponse : GateResult → Option (Nat × String)
  | .notConfigured => some (500, "Not configured. Visit /api/admin")
  | .invalidToken => some (403, "Invalid token")
  | .ok => none

/-- The src/server.js gate (src/scraper.js line 523):

  if (!config.calendarToken || req.params.token !== config.calendarToken)
    return res.status(403).send('Invalid token');

A missing configured token and a mismatched token produce the same
rejection.  Returns the early response, or none when the request
proceeds. -/
def serverGateReject (calendarToken : Option String) (provided : String) :
    Option (Nat × String) :=
  if calendarToken = none ∨ calendarToken = some "" ∨ some provided ≠ calendarToken then
    some (403, "Invalid token")
  else none

/-! ## Cache / Freshness Gate

GET /calendar/:token in src/server.js (src/scraper.js lines 527-553); the
api/calendar.js handler (src/README.md lines 163-200) has the identical
cache, miss and stale-fallback logic.  The upstream scrape plus document
generation is one blocking call whose outcome is passed in as an
Except-typed argument; now is the Date.now() sample taken when the request
arrives, before any scrape starts, and it is the value the source later
assigns to cacheTime. -/

def CACHE_TTL : Int := 15 * 60 * 1000

structure ServeResult where
  status : Nat
  xcache : Option String
  body : String
  cachedICS : Option String
  cacheTime : Int
  attempted : Bool
deriving DecidableEq, Repr

/-- The cache portion of the calendar handler.  cachedICS/cacheTime are the
module-level cache slot on entry; the returned fields are the response, the
cache slot after the request, and whether the handler entered the
regeneration path (invoking the upstream scrape). -/
def serveCalendar (cachedICS : Option String) (cacheTime : Int) (now : Int)
    (refreshParam : Option String) (fetchResult : Except String String) :
    ServeResult :=
  let forceRefresh := refreshParam = some "true"
  if ¬forceRefresh ∧ jsTruthy cachedICS = true ∧ now - cacheTime < CACHE_TTL then
    { status := 200, xcache := some "HIT", body := cachedICS.getD ""
      cachedICS := cachedICS, cacheTime := cacheTime, attempted := false }
  else
    match fetchResult with
    | .ok ics =>
      { status := 200, xcache := some "MISS", body := ics
        cachedICS := some ics, cacheTime := now, attempted := true }
    | .error e =>
      if jsTruthy cachedICS = true then
        { status := 200, xcache := some "STALE", body := cachedICS.getD ""
          cachedICS := cachedICS, cacheTime := cacheTime, attempted := true }
      else
        { status := 500, xcache := none
          body := "Error fetching appointments: " ++ e
          cachedICS := cachedICS, cacheTime := cacheTime, attempted := true }

/-! ## Date/Time Normalizer

parseDate, parseDateTime (src/scraper.js lines 320-359); the api/calendar.js
parseAppointment repeats the same date code inline and the same meridiem
rule on structured captures. -/

inductive Meridiem where
  | AM
  | PM
deriving DecidableEq, Repr

/-- The 12-to-24-hour rule shared by parseDateTime (src/scraper.js lines
348-354), parseAppointment (api/calendar.js) and parseAppointmentData
(src/server.js):

  if (meridiem.toUpperCase() === 'PM' && hours !== 12) hours += 12;
  else if (meridiem.toUpperCase() === 'AM' && hours === 12) hours = 0;

and hours are left unchanged when no meridiem was captured. -/
def to24Hour (hours : Nat) (meridiem : Option Meridiem) : Nat :=
  match meridiem with
  | some .PM => if hours ≠ 12 then hours + 12 else hours
  | some .AM => if hours = 12 then 0 else hours
  | none => hours

def isSpaceChar (c : Char) : Bool := c = ' ' ∨ c = '\t' ∨ c = '\n' ∨ c = '\r'

/-- Whitespace trimming on a character list (String.prototype.trim). -/
def charTrim (cs : List Char) : List Char :=
  ((cs.dropWhile isSpaceChar).reverse.dropWhile isSpaceChar).reverse

/-- Splits a character list into whitespace-separated words. -/
def wordsOfAux : List Char → List Char → List String
  | [], cur => if cur.isEmpty then [] else [⟨cur.reverse⟩]
  | c :: rest, cur =>
    if isSpaceChar c then
      if cur.isEmpty then wordsOfAux rest []
      else (⟨cur.reverse⟩ : String) :: wordsOfAux rest []
    else wordsOfAux rest (c :: cur)

/-- The whitespace-separated words of a string. -/
def wordsOf (s : String) : List String := wordsOfAux s.data []

/-- Reads the optional case-insensitive (AM|PM) capture at the head of the
remaining characters. -/
def meridiemAt (cs : List Char) : Option Meridiem :=
  match cs with
  | a :: m :: _ =>
    if asciiLower a = 'a' ∧ asciiLower m = 'm' then some .AM
    else if asciiLower a = 'p' ∧ asciiLower m = 'm' then some .PM
    else none
  | [a] =>
    let _ := a
    none
  | [] => none

/-- Greedily reads exactly n decimal digits. -/
def takeExactDigits (n : Nat) (cs : List Char) : Option (List Char × List Char) :=
  let hd := cs.take n
  if hd.length = n ∧ hd.all isDigit then some (hd, cs.drop n) else none

/-- One attempt of the time pattern (\d{1,2}):(\d{2})\s*(AM|PM)? with an
hour capture of the given width, anchored at the head. -/
def tryTimeFixed (hlen : Nat) (cs : List Char) : Option (Nat × Nat × Option Meridiem) := do
  let (hd, r1) ← takeExactDigits hlen cs
  match r1 with
  | ':' :: r2 => do
    let (md, r3) ← takeExactDigits 2 r2
    some (digitsToNat hd, digitsToNat md, meridiemAt (r3.dropWhile isSpaceChar))
  | _ => none

/-- The time pattern anchored at the head, with the regex backtracking
order (two hour digits first). -/
def tryTimeAt (cs : List Char) : Option (Nat × Nat × Option Meridiem) :=
  tryTimeFixed 2 cs <|> tryTimeFixed 1 cs

/-- Leftmost match of the time pattern (String.prototype.match without the
global flag). -/
def findTimeMatch : List Char → Option (Nat × Nat × Option Meridiem)
  | [] => none
  | c :: rest => tryTimeAt (c :: rest) <|> findTimeMatch rest

/-- parseDateTime (src/scraper.js lines 338-359).  date is the midnight
timestamp produced by parseDate (null modelled as none); setHours(h, m, 0, 0)
replaces the time of day of that date.  Out-of-range converted hours roll
into the following days exactly as in JS. -/
def parseDateTime (date : Option Int) (timeStr : Option String) : Option Int :=
  match date, timeStr with
  | some d, some ts =>
    match findTimeMatch ts.data with
    | none => none
    | some (hours, minutes, meridiem) =>
      some (d.fdiv msPerDay * msPerDay +
        msPerHour * (to24Hour hours meridiem : Int) + msPerMinute * (minutes : Int))
  | _, _ => none

def monthNamesFull : List String :=
  ["january", "february", "march", "april", "may", "june",
   "july", "august", "september", "october", "november", "december"]

def monthNamesAbbrev : List String :=
  ["jan", "feb", "mar", "apr", "may", "jun",
   "jul", "aug", "sep", "oct", "nov", "dec"]

/-- Zero-based month index of a lowercased month token, full name or
three-letter form. -/
def monthIndexOf (tok : String) : Option Nat :=
  match monthNamesFull.findIdx? (· = tok) with
  | some i => some i
  | none => monthNamesAbbrev.findIdx? (· = tok)

def weekdayNames : List String :=
  ["monday", "tuesday", "wednesday", "thursday", "friday", "saturday", "sunday",
   "mon", "tue", "wed", "thu", "fri", "sat", "sun"]

/-- Textual month-day-year triple of tokens: month name or abbreviation,
1-2 digit day, 4-digit year. -/
def parseMonthDayYear (mo d y : String) : Option Int :=
  match monthIndexOf (lowerStr mo) with
  | none => none
  | some idx =>
    if d.data ≠ [] ∧ d.data.length ≤ 2 ∧ d.data.all isDigit ∧
        y.data.length = 4 ∧ y.data.all isDigit then
      some (jsMakeDate (digitsToNat y.data) (idx : Int) (digitsToNat d.data))
    else none

/-- Models the JS Date(string) constructor on the date shapes this
repository's regular expressions can hand it: a textual month name with a
day and a 4-digit year, optionally preceded by a weekday name (commas are
already stripped by the caller).  Numeric slash/dash shapes return none
here; parseDate's explicit fallback then builds the same dates V8 would
for the shapes the page emits. -/
def jsNewDate (s : String) : Option Int :=
  let toks := wordsOf s
  match toks with
  | [mo, d, y] => parseMonthDayYear mo d y
  | [wd, mo, d, y] =>
    if weekdayNames.contains (lowerStr wd) then parseMonthDayYear mo d y else none
  | _ => none

def isSepChar (c : Char) : Bool := c = '/' ∨ c = '-'

/-- One attempt of (\d{1,2})[\/\-](\d{1,2})[\/\-](\d{2,4}) anchored at the
head with fixed capture widths. -/
def trySlashGroups (l1 l2 l3 : Nat) (cs : List Char) :
    Option (Nat × Nat × List Char) := do
  let (mo, r1) ← takeExactDigits l1 cs
  match r1 with
  | c :: r2 =>
    if isSepChar c then do
      let (d, r3) ← takeExactDigits l2 r2
      match r3 with
      | c2 :: r4 =>
        if isSepChar c2 then do
          let (y, _) ← takeExactDigits l3 r4
          some (digitsToNat mo, digitsToNat d, y)
        else none
      | [] => none
    else none
  | [] => none

/-- The slash-date pattern anchored at the head, alternatives in the regex
backtracking order (greedy widths first). -/
def trySlashAt (cs : List Char) : Option (Nat × Nat × List Char) :=
  trySlashGroups 2 2 4 cs <|> trySlashGroups 2 2 3 cs <|> trySlashGroups 2 2 2 cs <|>
  trySlashGroups 2 1 4 cs <|> trySlashGroups 2 1 3 cs <|> trySlashGroups 2 1 2 cs <|>
  trySlashGroups 1 2 4 cs <|> trySlashGroups 1 2 3 cs <|> trySlashGroups 1 2 2 cs <|>
  trySlashGroups 1 1 4 cs <|> trySlashGroups 1 1 3 cs <|> trySlashGroups 1 1 2 cs

/-- Leftmost match of the slash-date pattern. -/
def findSlashMatch : List Char → Option (Nat × Nat × List Char)
  | [] => none
  | c :: rest => trySlashAt (c :: rest) <|> findSlashMatch rest

/-- parseDate (src/scraper.js lines 320-336; repeated inline in the
api/calendar.js parseAppointment): strip commas and trim, try the general
date parse, then the explicit M/D/Y decomposition, prefixing '20' to a
2-digit year. -/
def parseDate (dateStr : String) : Option Int :=
  let cleaned : String := ⟨charTrim (dateStr.data.filter (· ≠ ','))⟩
  match jsNewDate cleaned with
  | some date => some date
  | none =>
    match findSlashMatch cleaned.data with
    | some (month, day, yearDigits) =>
      let year := if yearDigits.length = 2 then digitsToNat ('2' :: '0' :: yearDigits)
        else digitsToNat yearDigits
      some (jsMakeDate (year : Int) ((month : Int) - 1) (day : Int))
    | none => none

/-! ## Text Pattern Extractor, src/scraper.js variant

extractAppointments (src/scraper.js lines 202-292) reads regular-expression
results off each DOM node's innerText.  Those match results are the inputs
of the model: a CardScan holds what the three per-card patterns returned on
one card (strategy 1), a RowScan what the date pattern and the global time
pattern returned on one table row (strategy 2) or list item (strategy 3). -/

/-- JS s1 || s2 on a nullable string: null/undefined and '' fall through. -/
def jsOr (s : Option String) (d : String) : String :=
  if jsTruthy s = true then s.getD d else d

/-- JS s1 || s2 on a string. -/
def jsOrStr (s d : String) : String := if s = "" then d else s

/-- Captures of the range time pattern
(\d{1,2}:\d{2}\s*(AM|PM)?)\s*(-|to|x)\s*(\d{1,2}:\d{2}\s*(AM|PM)?). -/
structure TimeRangeMatch where
  full : String
  startStr : String
  endStr : String
deriving DecidableEq, Repr

/-- Match results of the strategy-1 patterns on one card (the card's
rawText excerpt is omitted: nothing downstream reads it). -/
structure CardScan where
  title : Option String
  dateMatch : Option String
  timeMatch : Option TimeRangeMatch
  singleTimeMatch : Option String
deriving DecidableEq, Repr

/-- Match results on one table row or list item: the date pattern and the
global time pattern (a null match result is the empty list). -/
structure RowScan where
  dateMatch : Option String
  timeMatches : List String
deriving DecidableEq, Repr

/-- The record pushed by the extraction strategies (rawText omitted). -/
structure RawApt where
  title : String
  dateText : Option String
  timeText : Option String
  startTime : Option String
  endTime : Option String
deriving DecidableEq, Repr

/-- Strategy 1 per card: push when the date pattern or the range time
pattern matched (a lone single-time match does not qualify). -/
def cardToRaw (card : CardScan) : Option RawApt :=
  if card.dateMatch.isSome ∨ card.timeMatch.isSome then
    some { title := jsOr card.title "Mathnasium Session"
           dateText := card.dateMatch
           timeText := (card.timeMatch.map (·.full)).orElse fun _ => card.singleTimeMatch
           startTime := (card.timeMatch.map (·.startStr)).orElse fun _ => card.singleTimeMatch
           endTime := card.timeMatch.map (·.endStr) }
  else none

/-- The strategy-1 selector loop: selectors are tried in order and the
first selector whose cards produce at least one result wins. -/
def strategy1 : List (List CardScan) → List RawApt
  | [] => []
  | cards :: rest =>
    if cards.isEmpty then strategy1 rest
    else
      let results := cards.filterMap cardToRaw
      if results.isEmpty then strategy1 rest else results

/-- Strategy 2 per row: both a date and at least one time are required. -/
def rowToRaw (row : RowScan) : Option RawApt :=
  if row.dateMatch.isSome ∧ ¬row.timeMatches.isEmpty then
    some { title := "Mathnasium Session"
           dateText := row.dateMatch
           timeText := none
           startTime := row.timeMatches[0]?
           endTime := row.timeMatches[1]? }
  else none

/-- Strategy 3 per list item: only a date is required; the times are
optional. -/
def itemToRaw (item : RowScan) : Option RawApt :=
  if item.dateMatch.isSome then
    some { title := "Mathnasium Session"
           dateText := item.dateMatch
           timeText := none
           startTime := item.timeMatches[0]?
           endTime := item.timeMatches[1]? }
  else none

/-- The appointment record built by parseAppointment (src/scraper.js lines
294-318): start and end stay null when the date or start time is missing
or unresolvable. -/
structure Appointment where
  title : String
  start : Option Int
  endTime : Option Int
deriving DecidableEq, Repr

/-- parseAppointment (src/scraper.js lines 294-318). -/
def parseAppointment (rawApt : RawApt) : Appointment :=
  let title := jsOrStr rawApt.title "Mathnasium Session"
  let date := match rawApt.dateText with
    | some ds => parseDate ds
    | none => none
  if date.isSome ∧ jsTruthy rawApt.startTime = true then
    let start := parseDateTime date rawApt.startTime
    let endT := match rawApt.endTime with
      | some et => parseDateTime date (some et)
      | none => start.map (· + 60 * 60 * 1000)
        -- new Date(appointment.start.getTime() + 60 * 60 * 1000); the
        -- source would throw here on a null start, which regex-produced
        -- startTime strings cannot trigger
    { title := title, start := start, endTime := endT }
  else
    { title := title, start := none, endTime := none }

/-- extractAppointments (src/scraper.js lines 202-292): strategy 1 on the
card selectors, strategy 2 on table rows when it produced nothing,
strategy 3 on list items when both produced nothing, then parseAppointment
over every collected record. -/
def extractAppointments (cardsBySelector : List (List CardScan))
    (rows : List RowScan) (items : List RowScan) : List Appointment :=
  let results := strategy1 cardsBySelector
  let results := if results.isEmpty then rows.filterMap rowToRaw else results
  let results := if results.isEmpty then items.filterMap itemToRaw else results
  results.map parseAppointment

/-! ## Text Pattern Extractor, api/calendar.js variant

extractAppointmentsFromHTML and parseAppointment (src/README.md lines
306-439).  A HtmlCard holds, for one card (or one page-wide date
occurrence), the first date-pattern match, the time-pattern captures and
the tag-stripped context text. -/

/-- Captures of the api/calendar.js time pattern
(\d{1,2}):(\d{2})\s*(AM|PM)?(?:\s*[-xto]+\s*(\d{1,2}):(\d{2})\s*(AM|PM)?)?;
the digit captures are kept as their parseInt values. -/
structure TimeMatchG where
  hour1 : Nat
  minute1 : Nat
  meridiem1 : Option Meridiem
  second : Option (Nat × Nat × Option Meridiem)
deriving DecidableEq, Repr

/-- One candidate: the date string found in a card or page window, the
time-pattern captures, and the surrounding text used for title
inference. -/
structure HtmlCard where
  dateStr : Option String
  tm : Option TimeMatchG
  contextText : String
deriving DecidableEq, Repr

/-- The parsed appointment of the api/calendar.js and src/server.js
pipelines: here start and end are always concrete. -/
structure AppointmentR where
  title : String
  start : Int
  endTime : Int
deriving DecidableEq, Repr

def titleKeywords : List String := ["session", "class", "lesson", "tutoring"]

/-- One keyword attempt of the title pattern
(?:session|class|lesson|tutoring)[:\s]+([^<\n]+) anchored at the head,
case-insensitively. -/
def tryTitleKeyword (kw : String) (cs : List Char) : Option (List Char) :=
  let k := kw.data
  if (cs.take k.length).map asciiLower = k then
    let rest := cs.drop k.length
    let sep := rest.takeWhile fun c => c = ':' ∨ isSpaceChar c = true
    if sep.isEmpty then none
    else
      let cap := (rest.drop sep.length).takeWhile fun c => c ≠ '<' ∧ c ≠ '\n'
      if cap.isEmpty then none else some cap
  else none

/-- The title pattern anchored at the head (alternatives in source
order). -/
def tryTitleAt (cs : List Char) : Option (List Char) :=
  titleKeywords.foldr (fun kw acc => tryTitleKeyword kw cs <|> acc) none

/-- Leftmost match of the title pattern. -/
def findTitleMatch : List Char → Option (List Char)
  | [] => none
  | c :: rest => tryTitleAt (c :: rest) <|> findTitleMatch rest

/-- Title inference of the api/calendar.js parseAppointment: the captured
phrase, trimmed and truncated to 50 characters, else the fixed default. -/
def inferTitle (contextText : String) : String :=
  match findTitleMatch contextText.data with
  | some cap => ⟨(charTrim cap).take 50⟩
  | none => "Mathnasium Session"

/-- setHours(h, m, 0, 0) on a date value: the time of day is replaced;
out-of-range hours roll into following days as in JS. -/
def setHoursOf (d : Int) (h m : Nat) : Int :=
  d.fdiv msPerDay * msPerDay + msPerHour * (h : Int) + msPerMinute * (m : Int)

/-- parseAppointment (api/calendar.js, src/README.md lines 384-439): the
inline date resolution is the same code as parseDate; the meridiem rule is
applied to the start captures and, when present, to the end captures
against the same date; otherwise the end is start + 60 minutes. -/
def parseAppointmentHtml (dateStr : String) (tm : TimeMatchG)
    (contextText : String) : Option AppointmentR :=
  match parseDate dateStr with
  | none => none
  | some date =>
    let start := setHoursOf date (to24Hour tm.hour1 tm.meridiem1) tm.minute1
    let endT := match tm.second with
      | some (h2, m2, mer2) => setHoursOf date (to24Hour h2 mer2) m2
      | none => start + 60 * 60 * 1000
    some { title := inferTitle contextText, start := start, endTime := endT }

def htmlCardToApt (c : HtmlCard) : Option AppointmentR :=
  match c.dateStr, c.tm with
  | some d, some t => parseAppointmentHtml d t c.contextText
  | _, _ => none

/-- The card-pattern loop of extractAppointmentsFromHTML: patterns are
tried in order and the first pattern whose cards produce at least one
appointment wins. -/
def extractFromCards : List (List HtmlCard) → List AppointmentR
  | [] => []
  | cards :: rest =>
    let appointments := cards.filterMap htmlCardToApt
    if appointments.isEmpty then extractFromCards rest else appointments

/-- extractAppointmentsFromHTML (src/README.md lines 306-382): the card
patterns first; when they produce nothing, the page-wide date scan with a
nearby-window time search. -/
def extractAppointmentsFromHTML (cardsByPattern : List (List HtmlCard))
    (pageWide : List HtmlCard) : List AppointmentR :=
  let appointments := extractFromCards cardsByPattern
  if appointments.isEmpty then pageWide.filterMap htmlCardToApt
  else appointments

/-! ## Calendar Encoder -/

structure Alarm where
  type : String
  trigger : Int
  description : Option String
deriving DecidableEq, Repr, Inhabited

structure Event where
  uid : String
  start : Int
  endTime : Int
  summary : String
  description : Option String
  location : String
  alarms : List Alarm
deriving DecidableEq, Repr, Inhabited

structure Calendar where
  name : String
  timezone : String
  ttl : Int
  events : List Event
deriving DecidableEq, Repr

/-- The appointment record consumed by src/calendar.js. -/
structure CalApt where
  title : String
  start : Option Int
  endTime : Option Int
  description : Option String
  location : Option String
deriving DecidableEq, Repr

/-- Template interpolation of a nullable Date's toISOString call: a null
start or end appears as the literal text 'undefined'. -/
def isoOrUndefined : Option Int → String
  | some t => isoString t
  | none => "undefined"

/-- The hash input of generateUID and of the api/calendar.js generateICS:
title, start ISO string and end ISO string joined by hyphens. -/
def uidContent (title startIso endIso : String) : String :=
  title ++ "-" ++ startIso ++ "-" ++ endIso

/-- generateUID (src/calendar.js lines 56-62). -/
def generateUID (apt : CalApt) : String :=
  md5Hex (uidContent apt.title (isoOrUndefined apt.start) (isoOrUndefined apt.endTime))
    ++ "@appointy-sync"

def CALENDAR_NAME : String := "Mathnasium Appointments"
def TIMEZONE : String := "America/New_York"

/-- generateCalendar (src/calendar.js lines 7-54): appointments without a
start are skipped; the end defaults to start + 1 hour; every event gets a
1-hour-before and a 1-day-before display alarm. -/
def generateCalendar (appointments : List CalApt) : Calendar :=
  { name := CALENDAR_NAME
    timezone := TIMEZONE
    ttl := 60 * 60
    events := appointments.filterMap fun apt =>
      match apt.start with
      | none => none
      | some s =>
        some { uid := generateUID apt
               start := s
               endTime := apt.endTime.getD (s + 60 * 60 * 1000)
               summary := apt.title
               description := some (jsOr apt.description "")
               location := jsOr apt.location "Mathnasium of Portland"
               alarms :=
                 [{ type := "display", trigger := -(60 * 60)
                    description := some ("Reminder: " ++ apt.title ++ " in 1 hour") },
                  { type := "display", trigger := -(24 * 60 * 60)
                    description := some ("Tomorrow: " ++ apt.title) }] } }

/-- generateICS (api/calendar.js, src/README.md lines 441-464): the uid
hashes title, start ISO and end ISO; each event gets a single
1-hour-before alarm. -/
def generateICSApi (appointments : List AppointmentR) (calendarName : String) :
    Calendar :=
  { name := calendarName
    timezone := "America/New_York"
    ttl := 60 * 60
    events := appointments.map fun apt =>
      { uid := md5Hex (uidContent apt.title (isoString apt.start) (isoString apt.endTime))
          ++ "@appointy-sync"
        start := apt.start
        endTime := apt.endTime
        summary := apt.title
        description := none
        location := "Mathnasium of Portland"
        alarms := [{ type := "display", trigger := -(60 * 60), description := none }] } }

/-- The raw record extracted by the src/server.js page scan: a month
abbreviation with day, year, hour and minute captures (digit captures kept
as their parseInt values; the year capture already carries the prefixed
'20'). -/
structure RawAptData where
  title : String
  month : String
  day : Nat
  year : Nat
  hour : Nat
  minute : Nat
  ampm : Option String
deriving DecidableEq, Repr

/-- new Date(year, monthIndex, day, hour, minute, 0, 0). -/
def jsMakeDateTime (year monthIndex day : Int) (hour minute : Int) : Int :=
  jsMakeDate year monthIndex day + hour * msPerHour + minute * msPerMinute

/-- parseAppointmentData (src/scraper.js lines 977-1017): month-map
lookup, the same meridiem rule, and a fixed 60-minute session length. -/
def parseAppointmentData (raw : RawAptData) : Option AppointmentR :=
  match monthNamesAbbrev.findIdx? (· = lowerStr raw.month) with
  | none => none
  | some monthIndex =>
    let ampm := raw.ampm.map lowerStr
    let hour := if ampm = some "pm" ∧ raw.hour ≠ 12 then raw.hour + 12 else raw.hour
    let hour := if ampm = some "am" ∧ hour = 12 then 0 else hour
    let start := jsMakeDateTime (raw.year : Int) (monthIndex : Int) (raw.day : Int)
      (hour : Int) (raw.minute : Int)
    let endT := start + 60 * 60 * 1000
    some { title := jsOrStr raw.title "Mathnasium Session"
           start := start, endTime := endT }

/-- generateICS (src/server.js, src/scraper.js lines 1019-1044): the uid
hashes only the start and end ISO strings (no title) with the @appointy
suffix; each event gets a single 1-hour-before alarm. -/
def generateICS (rawAppointments : List RawAptData) (calendarName : String) :
    Calendar :=
  { name := calendarName
    timezone := "America/New_York"
    ttl := 60 * 60
    events := rawAppointments.filterMap fun raw =>
      match parseAppointmentData raw with
      | none => none
      | some apt =>
        some { uid := md5Hex (isoString apt.start ++ "-" ++ isoString apt.endTime)
                 ++ "@appointy"
               start := apt.start
               endTime := apt.endTime
               summary := apt.title
               description := none
               location := "Mathnasium of Portland"
               alarms := [{ type := "display", trigger := -(60 * 60), description := none }] } }

/-! ## Claims -/

/-- C1: with an access token configured, the api/calendar.js gate accepts a
request exactly when the caller-supplied token equals the configured token;
a length mismatch is rejected without invoking crypto.timingSafeEqual, and
the fixed-time comparison runs only on equal-length inputs. -/
theorem claim_c1_access_gate (t p : List Nat) (ht : t ≠ []) :
    ((accessGateApi (some t) p).1 = GateResult.ok ↔ p = t) ∧
    (t.length ≠ p.length → (accessGateApi (some t) p).2 = false) ∧
    ((accessGateApi (some t) p).2 = true → t.length = p.length) := by
  unfold accessGateApi timingSafeEqual
  rw [if_neg (by simp [ht])]
  simp only [Option.getD_some]
  by_cases hlen : t.length = p.length
  · rw [if_neg (by simp [hlen])]
    by_cases heq : t = p
    · subst heq
      simp
    · rw [if_neg (by simp [heq])]
      refine ⟨⟨fun hok => absurd hok (by simp), fun hpt => absurd hpt.symm heq⟩,
        fun h => absurd hlen h, fun _ => hlen⟩
  · rw [if_pos hlen]
    constructor
    · constructor
      · intro h
        exact absurd h (by simp)
      · intro h
        exact absurd (congrArg List.length h) fun hl => hlen hl.symm
    · exact ⟨fun _ => rfl, fun h => absurd h (by simp)⟩

/-- C1 witness: the configured token [97, 98, 99, 100] against itself and
against the shorter [97, 98, 99]. -/
theorem claim_c1_access_gate_witness :
    ((accessGateApi (some [97, 98, 99, 100]) [97, 98, 99, 100]).1 = GateResult.ok ↔
      [97, 98, 99, 100] = [97, 98, 99, 100]) ∧
    ((accessGateApi (some [97, 98, 99, 100]) [97, 98, 99]).2 = false) := by
  exact ⟨(claim_c1_access_gate [97, 98, 99, 100] [97, 98, 99, 100] (by decide)).1,
    (claim_c1_access_gate [97, 98, 99, 100] [97, 98, 99] (by decide)).2.1 (by decide)⟩

/-- C2: a request finding a nonempty cached document younger than the
15-minute TTL and no refresh=true parameter is served that document marked
HIT without entering the regeneration path; a request whose cache age
reaches the TTL, or carrying refresh=true, enters the regeneration path. -/
theorem claim_c2_cache_freshness :
    (∀ (s : String) (cacheTime now : Int) (refresh : Option String)
        (fetch : Except String String),
      s ≠ "" → refresh ≠ some "true" → now - cacheTime < CACHE_TTL →
      serveCalendar (some s) cacheTime now refresh fetch =
        { status := 200, xcache := some "HIT", body := s
          cachedICS := some s, cacheTime := cacheTime, attempted := false }) ∧
    (∀ (cachedICS : Option String) (cacheTime now : Int) (refresh : Option String)
        (fetch : Except String String),
      CACHE_TTL ≤ now - cacheTime ∨ refresh = some "true" →
      (serveCalendar cachedICS cacheTime now refresh fetch).attempted = true) := by
  constructor
  · intro s cacheTime now refresh fetch hs hr hfresh
    unfold serveCalendar
    rw [if_pos ⟨hr, by simp [jsTruthy, hs], hfresh⟩]
    rfl
  · intro cachedICS cacheTime now refresh fetch h
    unfold serveCalendar
    rw [if_neg (by
      rintro ⟨hr, -, hfresh⟩
      rcases h with h | h
      · omega
      · exact hr h)]
    cases fetch with
    | ok ics => rfl
    | error e =>
      dsimp only
      by_cases htr : jsTruthy cachedICS = true
      · rw [if_pos htr]
      · rw [if_neg htr]

/-- C2 witness: a 10-minute-old cache is a HIT without regeneration; a
20-minute-old cache enters the regeneration path. -/
theorem claim_c2_cache_freshness_witness :
    serveCalendar (some "BEGIN:VCALENDAR") 0 600000 none (.ok "new") =
      { status := 200, xcache := some "HIT", body := "BEGIN:VCALENDAR"
        cachedICS := some "BEGIN:VCALENDAR", cacheTime := 0, attempted := false } ∧
    (serveCalendar (some "BEGIN:VCALENDAR") 0 1200000 none (.ok "new")).attempted = true := by
  exact ⟨claim_c2_cache_freshness.1 "BEGIN:VCALENDAR" 0 600000 none (.ok "new")
      (by decide) (by decide) (by decide),
    claim_c2_cache_freshness.2 (some "BEGIN:VCALENDAR") 0 1200000 none (.ok "new")
      (Or.inl (by decide))⟩

/-- C3: when the regeneration path is entered and the fetch fails, a
nonempty cached document of any age is served marked STALE with the cache
slot untouched; without one the handler responds 500. -/
theorem claim_c3_stale_fallback
    (cachedICS : Option String) (cacheTime now : Int) (refresh : Option String)
    (e : String)
    (hatt : (serveCalendar cachedICS cacheTime now refresh (.error e)).attempted = true) :
    (∀ s : String, cachedICS = some s → s ≠ "" →
      serveCalendar cachedICS cacheTime now refresh (.error e) =
        { status := 200, xcache := some "STALE", body := s
          cachedICS := some s, cacheTime := cacheTime, attempted := true }) ∧
    (jsTruthy cachedICS = false →
      (serveCalendar cachedICS cacheTime now refresh (.error e)).status = 500) := by
  by_cases hhit : ¬(refresh = some "true") ∧ jsTruthy cachedICS = true ∧
      now - cacheTime < CACHE_TTL
  · exfalso
    unfold serveCalendar at hatt
    rw [if_pos hhit] at hatt
    exact absurd hatt (by simp)
  · constructor
    · intro s hcs hs
      subst hcs
      unfold serveCalendar
      rw [if_neg hhit]
      dsimp only
      rw [if_pos (by simp [jsTruthy, hs])]
      rfl
    · intro hfalsy
      unfold serveCalendar
      rw [if_neg hhit]
      dsimp only
      rw [if_neg (by simp [hfalsy])]

/-- C3 witness: a failed fetch over a 20-minute-old cache serves the old
document marked STALE; over an empty cache it responds 500. -/
theorem claim_c3_stale_fallback_witness :
    serveCalendar (some "OLD") 0 1200000 none (.error "boom") =
      { status := 200, xcache := some "STALE", body := "OLD"
        cachedICS := some "OLD", cacheTime := 0, attempted := true } ∧
    (serveCalendar none 0 1200000 none (.error "boom")).status = 500 := by
  exact ⟨(claim_c3_stale_fallback (some "OLD") 0 1200000 none "boom" (by decide)).1
      "OLD" rfl (by decide),
    (claim_c3_stale_fallback none 0 1200000 none "boom" (by decide)).2 (by decide)⟩

/-- C10: a successful regeneration stores the Date.now() sample taken at
request arrival (the handler samples the clock exactly once, before the
scrape, and later assigns that same value to cacheTime), so the next
freshness window is measured from arrival; a HIT leaves both the cached
text and the timestamp unchanged. -/
theorem claim_c10_cache_timestamp
    (cachedICS : Option String) (cacheTime now : Int) (refresh : Option String)
    (fetch : Except String String) :
    ((serveCalendar cachedICS cacheTime now refresh fetch).attempted = false →
      (serveCalendar cachedICS cacheTime now refresh fetch).cachedICS = cachedICS ∧
      (serveCalendar cachedICS cacheTime now refresh fetch).cacheTime = cacheTime) ∧
    (∀ ics, fetch = .ok ics →
      (serveCalendar cachedICS cacheTime now refresh fetch).attempted = true →
      (serveCalendar cachedICS cacheTime now refresh fetch).cachedICS = some ics ∧
      (serveCalendar cachedICS cacheTime now refresh fetch).cacheTime = now) := by
  unfold serveCalendar
  by_cases hhit : ¬(refresh = some "true") ∧ jsTruthy cachedICS = true ∧
      now - cacheTime < CACHE_TTL
  · rw [if_pos hhit]
    exact ⟨fun _ => ⟨rfl, rfl⟩, fun ics _ hatt => absurd hatt (by simp)⟩
  · rw [if_neg hhit]
    cases fetch with
    | ok ics =>
      refine ⟨fun hatt => absurd hatt (by simp), ?_⟩
      intro ics' hics _
      cases hics
      exact ⟨rfl, rfl⟩
    | error e =>
      refine ⟨?_, fun ics hics => by cases hics⟩
      dsimp only
      by_cases htr : jsTruthy cachedICS = true
      · rw [if_pos htr]
        exact fun hatt => absurd hatt (by simp)
      · rw [if_neg htr]
        exact fun hatt => absurd hatt (by simp)

/-- C10 witness: a miss at arrival time 1200000 stores that arrival time
with the new text; a HIT at 600000 leaves the slot untouched. -/
theorem claim_c10_cache_timestamp_witness :
    ((serveCalendar (some "OLD") 0 1200000 none (.ok "NEW")).cachedICS = some "NEW" ∧
      (serveCalendar (some "OLD") 0 1200000 none (.ok "NEW")).cacheTime = 1200000) ∧
    ((serveCalendar (some "OLD") 0 600000 none (.ok "NEW")).cachedICS = some "OLD" ∧
      (serveCalendar (some "OLD") 0 600000 none (.ok "NEW")).cacheTime = 0) := by
  exact ⟨(claim_c10_cache_timestamp (some "OLD") 0 1200000 none (.ok "NEW")).2
      "NEW" rfl (by decide),
    (claim_c10_cache_timestamp (some "OLD") 0 600000 none (.ok "NEW")).1 (by decide)⟩

/-- C4: for hours 1..12 with a meridiem marker, the 12-to-24-hour rule is
exact: PM with hour not 12 adds 12, AM with hour 12 gives 0, and the hour
is otherwise unchanged. -/
theorem claim_c4_meridiem_conversion (h : Nat) (mer : Meridiem)
    (h1 : 1 ≤ h) (h12 : h ≤ 12) :
    (mer = .PM → h ≠ 12 → to24Hour h (some mer) = h + 12) ∧
    (mer = .AM → h = 12 → to24Hour h (some mer) = 0) ∧
    (mer = .PM → h = 12 → to24Hour h (some mer) = h) ∧
    (mer = .AM → h ≠ 12 → to24Hour h (some mer) = h) := by
  cases mer <;>
    refine ⟨fun hm hh => ?_, fun hm hh => ?_, fun hm hh => ?_, fun hm hh => ?_⟩ <;>
    simp_all [to24Hour]

/-- C4 witness: 12 AM is 0, 12 PM stays 12, 1 PM is 13, 11 PM is 23. -/
theorem claim_c4_meridiem_conversion_witness :
    to24Hour 12 (some Meridiem.AM) = 0 ∧ to24Hour 12 (some Meridiem.PM) = 12 ∧
    to24Hour 1 (some Meridiem.PM) = 13 ∧ to24Hour 11 (some Meridiem.PM) = 23 := by
  refine ⟨(claim_c4_meridiem_conversion 12 .AM (by decide) (by decide)).2.1 rfl rfl,
    (claim_c4_meridiem_conversion 12 .PM (by decide) (by decide)).2.2.1 rfl rfl,
    (claim_c4_meridiem_conversion 1 .PM (by decide) (by decide)).1 rfl (by decide),
    (claim_c4_meridiem_conversion 11 .PM (by decide) (by decide)).1 rfl (by decide)⟩

/-- C5: an appointment parsed from a match with no end-time captures ends
exactly 60 minutes after it starts; when second hour/minute captures are
present, the end is resolved by the same meridiem conversion against the
same calendar date as the start. -/
theorem claim_c5_end_time (dateStr : String) (tm : TimeMatchG) (ctx : String)
    (apt : AppointmentR)
    (hp : parseAppointmentHtml dateStr tm ctx = some apt) :
    (tm.second = none → apt.endTime - apt.start = 60 * 60 * 1000) ∧
    (∀ h2 m2 mer2, tm.second = some (h2, m2, mer2) →
      ∃ date, parseDate dateStr = some date ∧
        apt.start = setHoursOf date (to24Hour tm.hour1 tm.meridiem1) tm.minute1 ∧
        apt.endTime = setHoursOf date (to24Hour h2 mer2) m2) := by
  unfold parseAppointmentHtml at hp
  cases hd : parseDate dateStr with
  | none =>
    rw [hd] at hp
    exact absurd hp (by simp)
  | some date =>
    rw [hd] at hp
    constructor
    · intro hsec
      rw [hsec] at hp
      cases hp
      simp
    · intro h2 m2 mer2 hsec
      rw [hsec] at hp
      cases hp
      exact ⟨date, rfl, rfl, rfl⟩

/-- C5 witness: the end-to-end example with date 1/5/26 and the single
time 9:30 AM yields an appointment ending exactly 60 minutes after its
9:30 start. -/
theorem claim_c5_end_time_witness :
    parseAppointmentHtml "1/5/26"
        { hour1 := 9, minute1 := 30, meridiem1 := some Meridiem.AM, second := none } "" =
      some { title := "Mathnasium Session", start := 1767605400000, endTime := 1767609000000 } ∧
    (1767609000000 : Int) - 1767605400000 = 60 * 60 * 1000 := by
  have hp : parseAppointmentHtml "1/5/26"
      { hour1 := 9, minute1 := 30, meridiem1 := some Meridiem.AM, second := none } "" =
      some { title := "Mathnasium Session", start := 1767605400000, endTime := 1767609000000 } := by
    decide
  exact ⟨hp, (claim_c5_end_time "1/5/26"
    { hour1 := 9, minute1 := 30, meridiem1 := some Meridiem.AM, second := none } ""
    { title := "Mathnasium Session", start := 1767605400000, endTime := 1767609000000 }
    hp).1 rfl⟩

/-- C7 as amended: in the api/calendar.js handler the gate reports
notConfigured exactly when the configured token is absent (or empty), and
that response (500, not configured) differs from the invalid-token
response (403); the src/server.js handler instead answers an absent
configured token with the very same 403 Invalid token response as an
authentication failure (see the counterexample). -/
theorem claim_c7_not_configured (calendarToken : Option (List Nat)) (p : List Nat) :
    ((accessGateApi calendarToken p).1 = GateResult.notConfigured ↔
      (calendarToken = none ∨ calendarToken = some [])) ∧
    gateResponse GateResult.notConfigured ≠ gateResponse GateResult.invalidToken := by
  refine ⟨?_, by decide⟩
  unfold accessGateApi
  by_cases hcfg : calendarToken = none ∨ calendarToken = some []
  · rw [if_pos hcfg]
    simpa using hcfg
  · rw [if_neg hcfg]
    by_cases hlen : (calendarToken.getD []).length ≠ p.length
    · rw [if_pos hlen]
      simpa using hcfg
    · rw [if_neg hlen]
      by_cases heq : timingSafeEqual (calendarToken.getD []) p = true
      · rw [if_pos heq]
        simpa using hcfg
      · rw [if_neg heq]
        simpa using hcfg

/-- C7 counterexample: the src/server.js gate answers a missing configured
token with exactly the invalid-token rejection, conflating the two
outcomes the claim requires to stay distinct. -/
theorem claim_c7_conflation_counterexample :
    serverGateReject none "sometoken" = some (403, "Invalid token") ∧
    serverGateReject (some "secret") "wrong" = some (403, "Invalid token") ∧
    serverGateReject none "sometoken" = serverGateReject (some "secret") "wrong" := by
  refine ⟨by decide, by decide, by decide⟩

/-- C6 counterexample: in the src/server.js generateICS the identifier
hashes only the start and end ISO strings, so two appointments whose
triples differ only in title receive the same identifier. -/
theorem claim_c6_uid_counterexample :
    ((generateICS
        [{ title := "Algebra Review", month := "Jan", day := 8, year := 2026,
           hour := 4, minute := 0, ampm := some "pm" },
         { title := "Geometry Review", month := "Jan", day := 8, year := 2026,
           hour := 4, minute := 0, ampm := some "pm" }] "Cal").events.map
      Event.summary = ["Algebra Review", "Geometry Review"]) ∧
    ((generateICS
        [{ title := "Algebra Review", month := "Jan", day := 8, year := 2026,
           hour := 4, minute := 0, ampm := some "pm" },
         { title := "Geometry Review", month := "Jan", day := 8, year := 2026,
           hour := 4, minute := 0, ampm := some "pm" }] "Cal").events.map
      Event.uid).getD 0 "" =
    ((generateICS
        [{ title := "Algebra Review", month := "Jan", day := 8, year := 2026,
           hour := 4, minute := 0, ampm := some "pm" },
         { title := "Geometry Review", month := "Jan", day := 8, year := 2026,
           hour := 4, minute := 0, ampm := some "pm" }] "Cal").events.map
      Event.uid).getD 1 "x" := by
  exact ⟨rfl, rfl⟩

/-- C6 as amended: in src/calendar.js generateUID and the api/calendar.js
generateICS the hash input joins title, start ISO string and end ISO
string, and on the fixed 24-character ISO renderings that input is
injective, so distinct triples give distinct hash inputs there (identifiers
then differ whenever the MD5 digests differ); the src/server.js generateICS
however omits the title from the hash, so appointments differing only in
title share an identifier (see the counterexample). -/
theorem claim_c6_uid_content_injective (t1 s1 e1 t2 s2 e2 : String)
    (hs1 : s1.length = 24) (he1 : e1.length = 24)
    (hs2 : s2.length = 24) (he2 : e2.length = 24)
    (h : uidContent t1 s1 e1 = uidContent t2 s2 e2) :
    t1 = t2 ∧ s1 = s2 ∧ e1 = e2 := by
  unfold uidContent at h
  have hd := congrArg String.data h
  simp only [String.data_append] at hd
  have hse : s1.data.length = s2.data.length := hs1.trans hs2.symm
  have hee : e1.data.length = e2.data.length := he1.trans he2.symm
  obtain ⟨hA, hE⟩ := List.append_inj' hd hee
  obtain ⟨hB, -⟩ := List.append_inj' hA rfl
  obtain ⟨hC, hS⟩ := List.append_inj' hB hse
  obtain ⟨hT, -⟩ := List.append_inj' hC rfl
  exact ⟨String.ext hT, String.ext hS, String.ext hE⟩

/-- C6 witness: the injectivity hypotheses hold at the ISO strings of the
end-to-end example appointment. -/
theorem claim_c6_uid_content_injective_witness :
    "Algebra Review" = "Algebra Review" ∧
    "2026-01-15T16:00:00.000Z" = "2026-01-15T16:00:00.000Z" ∧
    "2026-01-15T17:00:00.000Z" = "2026-01-15T17:00:00.000Z" :=
  claim_c6_uid_content_injective
    "Algebra Review" "2026-01-15T16:00:00.000Z" "2026-01-15T17:00:00.000Z"
    "Algebra Review" "2026-01-15T16:00:00.000Z" "2026-01-15T17:00:00.000Z"
    (by decide) (by decide) (by decide) (by decide) rfl

/-- A candidate that lacks a time match or whose date text does not
resolve through parseDate. -/
def unresolvableCandidate (c : HtmlCard) : Prop :=
  c.dateStr.bind parseDate = none ∨ c.tm = none

theorem htmlCardToApt_unresolvable (c : HtmlCard) (h : unresolvableCandidate c) :
    htmlCardToApt c = none := by
  obtain ⟨ds, tm, ctx⟩ := c
  rcases h with h | h
  · cases ds with
    | none => cases tm <;> rfl
    | some d =>
      cases tm with
      | none => rfl
      | some t =>
        have hd : parseDate d = none := h
        show parseAppointmentHtml d t ctx = none
        unfold parseAppointmentHtml
        rw [hd]
  · cases h
    cases ds <;> rfl

theorem filterMap_htmlCardToApt_nil (l : List HtmlCard)
    (h : ∀ c ∈ l, unresolvableCandidate c) : l.filterMap htmlCardToApt = [] :=
  List.filterMap_eq_nil_iff.mpr fun c hc => htmlCardToApt_unresolvable c (h c hc)

theorem extractFromCards_eq_nil (L : List (List HtmlCard))
    (h : ∀ cards ∈ L, ∀ c ∈ cards, unresolvableCandidate c) :
    extractFromCards L = [] := by
  induction L with
  | nil => rfl
  | cons cs rest ih =>
    unfold extractFromCards
    rw [filterMap_htmlCardToApt_nil cs (h cs (List.mem_cons_self cs rest))]
    simpa using ih fun cards hm c hc => h cards (List.mem_cons_of_mem cs hm) c hc

/-- C8 as amended: the api/calendar.js extractor discards every candidate
that lacks a time match and every candidate whose date text does not
resolve, so when all candidates are such the extraction output is empty;
the src/scraper.js extractAppointments, by contrast, emits appointment
records with a null start for a strategy-1 card matching only a time range
and for a strategy-3 item matching only a date (see the counterexample),
and those are only filtered out later by generateCalendar. -/
theorem claim_c8_discard (cardsByPattern : List (List HtmlCard))
    (pageWide : List HtmlCard)
    (hc : ∀ cards ∈ cardsByPattern, ∀ c ∈ cards, unresolvableCandidate c)
    (hp : ∀ c ∈ pageWide, unresolvableCandidate c) :
    extractAppointmentsFromHTML cardsByPattern pageWide = [] := by
  unfold extractAppointmentsFromHTML
  rw [extractFromCards_eq_nil cardsByPattern hc]
  simpa using filterMap_htmlCardToApt_nil pageWide hp

/-- C8 witness: a card with an unresolvable date text and a page-wide date
with no time are both discarded. -/
theorem claim_c8_discard_witness :
    extractAppointmentsFromHTML
      [[{ dateStr := some "garbage", contextText := ""
          tm := some { hour1 := 4, minute1 := 0, meridiem1 := some Meridiem.PM, second := none } }]]
      [{ dateStr := some "Monday, January 15, 2026", tm := none, contextText := "" }] = [] := by
  apply claim_c8_discard
  · intro cards hm c hcm
    rw [List.mem_singleton] at hm
    subst hm
    rw [List.mem_singleton] at hcm
    subst hcm
    exact Or.inl (by decide)
  · intro c hcm
    rw [List.mem_singleton] at hcm
    subst hcm
    exact Or.inr rfl

/-- C8 counterexample: the src/scraper.js extractor keeps a strategy-1
card that matched a time range but no date, and a strategy-3 list item
that matched a date but no time, emitting appointments with no resolved
start in both cases. -/
theorem claim_c8_extraction_counterexample :
    extractAppointments
      [[{ title := none, dateMatch := none,
          timeMatch := some { full := "4:00 PM - 5:00 PM", startStr := "4:00 PM",
                              endStr := "5:00 PM" },
          singleTimeMatch := some "4:00 PM" }]] [] [] =
      [{ title := "Mathnasium Session", start := none, endTime := none }] ∧
    extractAppointments [] [] [{ dateMatch := some "1/15/2026", timeMatches := [] }] =
      [{ title := "Mathnasium Session", start := none, endTime := none }] :=
  ⟨by decide, by decide⟩

/-- C9 as amended: every event of the src/calendar.js generateCalendar
carries exactly two display reminders, 60 minutes and 24 hours before the
start; the api/calendar.js and src/server.js generateICS variants attach
only the single 60-minute reminder (see the counterexample). -/
theorem claim_c9_two_alarms (appointments : List CalApt) (e : Event)
    (he : e ∈ (generateCalendar appointments).events) :
    e.alarms.map Alarm.trigger = [-(60 * 60), -(24 * 60 * 60)] := by
  simp only [generateCalendar, List.mem_filterMap] at he
  obtain ⟨apt, -, hf⟩ := he
  cases hs : apt.start with
  | none =>
    rw [hs] at hf
    cases hf
  | some s =>
    rw [hs] at hf
    cases hf
    rfl

/-- C9 witness: the sole event generated from one appointment with a start
carries the two reminders. -/
theorem claim_c9_two_alarms_witness :
    ((generateCalendar
        [{ title := "T", start := some 0, endTime := none, description := none,
           location := none }]).events.headI).alarms.map Alarm.trigger =
      [-(60 * 60), -(24 * 60 * 60)] := by
  apply claim_c9_two_alarms
  have h : (generateCalendar
      [{ title := "T", start := some 0, endTime := none, description := none,
         location := none }]).events =
      (generateCalendar
        [{ title := "T", start := some 0, endTime := none, description := none,
           location := none }]).events.headI :: [] := rfl
  exact h ▸ List.mem_cons_self _ _

/-- C9 counterexample: the api/calendar.js and src/server.js generateICS
attach exactly one reminder entry (60 minutes before) to their events, not
the two the claim states. -/
theorem claim_c9_single_alarm_counterexample :
    ((generateICSApi [{ title := "T", start := 0, endTime := 3600000 }] "Cal").events.map
      fun e => e.alarms.map Alarm.trigger) = [[-(60 * 60)]] ∧
    ((generateICS
        [{ title := "T", month := "Jan", day := 8, year := 2026, hour := 4,
           minute := 0, ampm := some "pm" }] "Cal").events.map
      fun e => e.alarms.map Alarm.trigger) = [[-(60 * 60)]] :=
  ⟨rfl, rfl⟩

end AppointySync
